import Mathlib

/-!
Shallow embedding of the qt_obdii core (src/src/processes/bluetooth_handler.py,
src/src/processes/obd_handler.py, src/src/gui/main_window.py) together with
theorems checking the specification claims against it.

Modelling conventions:
  - Python object attributes become fields of explicit state records.
  - `await` points that can interleave are made explicit (the overlapped send
    model) and `asyncio.sleep(d)` advances a mock clock by `d`.
  - Exceptions raised by the environment (bleak, python-obd) are injected as
    boolean flags or event markers; a `try/except` that swallows an exception
    becomes a branch on that flag.
-/

namespace ObdII

/-! ### Device discovery: BluetoothHandler.scan_for_devices -/

/-- A device as reported by the scanner back end (bleak), before filtering.
The advertised name may be absent. -/
structure BLEDevice where
  name : Option String
  address : String
  rssi : Int
deriving DecidableEq, Repr

/-- Entry of the list returned by scan_for_devices
(the dict with name, address, rssi built at bluetooth_handler.py lines 43-47). -/
structure DeviceInfo where
  name : String
  address : String
  rssi : Int
deriving DecidableEq, Repr

/-- Containment of pat as a contiguous run of characters, by scanning suffixes. -/
def containsChars (pat : List Char) : List Char → Bool
  | [] => pat.isEmpty
  | c :: rest => pat.isPrefixOf (c :: rest) || containsChars pat rest

/-- Substring test: Python `pat in s`. -/
def containsSub (pat s : String) : Bool :=
  containsChars pat.toList s.toList

/-- Loop body of scan_for_devices (lines 39-48): keep a device only when it has
a name and the name contains "OBD" or "ELM". -/
def scanBody (d : BLEDevice) : Option DeviceInfo :=
  match d.name with
  | none => none
  | some n =>
      if containsSub "OBD" n || containsSub "ELM" n then
        some ⟨n, d.address, d.rssi⟩
      else
        none

/-- One step of the scanning environment: either the back end yields a device
or an exception is raised somewhere inside the `try` block. -/
inductive ScanEvent
  | found (d : BLEDevice)
  | failure
deriving DecidableEq, Repr

/-- scan_for_devices (lines 31-52): accumulate filtered devices; an exception
aborts the loop but the `except` handler swallows it and the devices gathered
so far are still returned. -/
def scan_for_devices : List ScanEvent → List DeviceInfo
  | [] => []
  | ScanEvent.failure :: _ => []
  | ScanEvent.found d :: rest =>
      match scanBody d with
      | some i => i :: scan_for_devices rest
      | none => scan_for_devices rest

/-- The devices the loop manages to process: everything before the first
exception. -/
def devicesBeforeFailure : List ScanEvent → List BLEDevice
  | [] => []
  | ScanEvent.failure :: _ => []
  | ScanEvent.found d :: rest => d :: devicesBeforeFailure rest

lemma scan_eq_filterMap (evs : List ScanEvent) :
    scan_for_devices evs = (devicesBeforeFailure evs).filterMap scanBody := by
  induction evs with
  | nil => rfl
  | cons e rest ih =>
      cases e with
      | failure => rfl
      | found d =>
          simp only [scan_for_devices, devicesBeforeFailure, List.filterMap_cons]
          cases h : scanBody d <;> simp [h, ih]

lemma devicesBeforeFailure_map_found (devs : List BLEDevice) :
    devicesBeforeFailure (devs.map ScanEvent.found) = devs := by
  induction devs with
  | nil => rfl
  | cons d rest ih => simp [devicesBeforeFailure, ih]

/-- C7: a discovered device appears in the scan result exactly when it has an
advertised name containing "OBD" or "ELM" (case-sensitive); in addition, a
device named "RandomSpeaker" or an unnamed device is dropped while
"ELM327-v1.5" and "Generic OBDII" are kept. -/
theorem scan_name_filter (devs : List BLEDevice) (d : BLEDevice) (n : String)
    (hd : d ∈ devs) (hn : d.name = some n) :
    ((⟨n, d.address, d.rssi⟩ : DeviceInfo) ∈
        scan_for_devices (devs.map ScanEvent.found) ↔
      (containsSub "OBD" n || containsSub "ELM" n) = true) ∧
    scanBody ⟨some "RandomSpeaker", "AA", 0⟩ = none ∧
    scanBody ⟨none, "AA", 0⟩ = none ∧
    (scanBody ⟨some "ELM327-v1.5", "AA", 0⟩).isSome = true ∧
    (scanBody ⟨some "Generic OBDII", "AA", 0⟩).isSome = true := by
  refine ⟨?_, by decide, by decide, by decide, by decide⟩
  rw [scan_eq_filterMap, devicesBeforeFailure_map_found]
  constructor
  · intro hmem
    rcases List.mem_filterMap.mp hmem with ⟨dev, _, hbody⟩
    rcases hname : dev.name with _ | m
    · simp [scanBody, hname] at hbody
    · simp only [scanBody, hname] at hbody
      split at hbody
      case isTrue hc =>
        have hmn : m = n := congrArg DeviceInfo.name (Option.some.inj hbody)
        rwa [hmn] at hc
      case isFalse => exact absurd hbody (by simp)
  · intro hc
    refine List.mem_filterMap.mpr ⟨d, hd, ?_⟩
    simp only [scanBody, hn, hc, if_pos]

/-- C7 witness: on a one-device scan with name "ELM327-v1.5" the device is
included. -/
theorem scan_name_filter_witness :
    (⟨"ELM327-v1.5", "AA", 0⟩ : DeviceInfo) ∈
      scan_for_devices (([(⟨some "ELM327-v1.5", "AA", 0⟩ : BLEDevice)]).map
        ScanEvent.found) :=
  ((scan_name_filter [⟨some "ELM327-v1.5", "AA", 0⟩]
      ⟨some "ELM327-v1.5", "AA", 0⟩ "ELM327-v1.5" (by simp) rfl).1).mpr
    (by decide)

/-- C8: scan_for_devices is a total function into lists of device descriptors:
whatever the event stream (including an exception at any point), it returns the
filtered devices accumulated before the first failure — the empty list when
nothing matched or when the failure came first — and never propagates an
exception. -/
theorem scan_total_returns_accumulated (evs : List ScanEvent) :
    scan_for_devices evs = (devicesBeforeFailure evs).filterMap scanBody ∧
    scan_for_devices (ScanEvent.failure :: evs) = [] ∧
    scan_for_devices [] = [] :=
  ⟨scan_eq_filterMap evs, rfl, rfl⟩

/-! ### BluetoothHandler state (connect_to_device, disconnect, send_command) -/

/-- The mutable attributes of BluetoothHandler that the control flow reads and
writes. `hasClient` models `self.client is not None`, `clientOpen` whether the
underlying BLE link of that client is established, `hasCharacteristic` models
`self.characteristic` being set. -/
structure BTState where
  is_connected : Bool
  hasClient : Bool
  clientOpen : Bool
  hasCharacteristic : Bool
deriving DecidableEq, Repr

/-- State after `__init__`: no client, not connected. -/
def initialBTState : BTState := ⟨false, false, false, false⟩

/-- A fully connected handler, as left by a successful connect_to_device. -/
def connectedBTState : BTState := ⟨true, true, true, true⟩

/-- Observable callback invocations. `connectionCb b` is a call of the callback
registered with set_connection_callback; `disconnectionCb` is a call of the
zero-argument callback registered with set_disconnection_callback. Both
callbacks are taken to be registered. -/
inductive CbEvent
  | connectionCb (connected : Bool)
  | disconnectionCb
deriving DecidableEq, Repr

/-- disconnect (bluetooth_handler.py lines 122-139): early return when not
connected or without client; otherwise close the client — when
client.disconnect() raises, the except block swallows it and no attribute is
updated — then reset the attributes and call the disconnection callback. -/
def disconnect (s : BTState) (disconnectRaises : Bool) :
    BTState × List CbEvent :=
  if !s.is_connected || !s.hasClient then (s, [])
  else if disconnectRaises then (s, [])
  else (⟨false, false, false, false⟩, [CbEvent.disconnectionCb])

/-- How the environment behaves during one connect_to_device attempt. -/
structure ConnectEnv where
  /-- `await self.client.connect()` raises. -/
  openRaises : Bool
  /-- the connected device advertises the ELM327 service UUID. -/
  hasService : Bool
  /-- that service carries the ELM327 write/notify characteristic UUID. -/
  hasChar : Bool
  /-- `await self.client.start_notify(...)` raises. -/
  startNotifyRaises : Bool
deriving DecidableEq, Repr

/-- connect_to_device (lines 54-120). Notes that shape the model:
the new BleakClient is stored in `self.client` before connecting; on a
verification failure the code calls `self.disconnect()`, which early-returns
because `self.is_connected` is still false at that point, so the open link is
not closed; the `send_command("ATZ")` test call returns None without writing
because `self.is_connected` is still false; `self.is_connected` is set to true
only after service and characteristic were both found. -/
def connect_to_device (s : BTState) (env : ConnectEnv) :
    Bool × BTState × List CbEvent :=
  if s.is_connected then (true, s, [])
  else
    let s1 : BTState := { s with hasClient := true, clientOpen := false }
    if env.openRaises then (false, s1, [CbEvent.connectionCb false])
    else
      let s2 : BTState := { s1 with clientOpen := true }
      if !env.hasService then
        let d := disconnect s2 false
        (false, d.1, d.2)
      else if !env.hasChar then
        let d := disconnect s2 false
        (false, d.1, d.2)
      else
        let s3 : BTState := { s2 with hasCharacteristic := true }
        if env.startNotifyRaises then (false, s3, [CbEvent.connectionCb false])
        else (true, { s3 with is_connected := true }, [CbEvent.connectionCb true])

/-- _notification_handler (lines 168-179): decodes and logs the fragment, and
mutates no handler attribute. -/
def notification_handler (s : BTState) (_data : String) : BTState := s

/-- Value and transport writes of one send_command call. -/
structure SendResult where
  ret : Option String
  written : List String
deriving DecidableEq, Repr

/-- send_command (lines 141-166): guard on is_connected, client and
characteristic; write the command with a carriage return appended; sleep while
notifications (`notifications`) are handled; return the fixed "OK". A write
failure is swallowed and yields None. -/
def send_command (s : BTState) (writeRaises : Bool) (command : String)
    (notifications : List String) : SendResult × BTState :=
  if !s.is_connected || !s.hasClient || !s.hasCharacteristic then
    (⟨none, []⟩, s)
  else if writeRaises then (⟨none, []⟩, s)
  else (⟨some "OK", [command ++ "\r"]⟩, notifications.foldl notification_handler s)

/-- Two send_command calls whose executions overlap: the first writes its
command and suspends in `asyncio.sleep`; the second then runs to completion
during that sleep; the first resumes and returns. Since send_command mutates no
handler attribute before its sleep, this interleaving is the sequential
composition below, with the writes in submission order. -/
def overlapped_sends (s : BTState) (c1 c2 : String) :
    (Option String × Option String) × List String :=
  let r1 := send_command s false c1 []
  let r2 := send_command r1.2 false c2 []
  ((r1.1.ret, r2.1.ret), r1.1.written ++ r2.1.written)

/-- C1: with a request outstanding (the first command written, its sender
suspended in its sleep), a second send_command is not rejected with any busy
error and the code does not queue it behind the first: it is written to the
transport immediately and the call returns the same success value "OK" — no
pending-request discipline exists in the wireless send path. -/
theorem send_no_busy_rejection :
    overlapped_sends connectedBTState "010C" "010D" =
      ((some "OK", some "OK"), ["010C\r", "010D\r"]) := by
  decide

/-- C9: when connected with client and characteristic and the
write succeeds, send_command returns the fixed "OK" and leaves the state
unchanged, whatever notification fragments the adapter delivers — the reply
content never influences the returned value. -/
theorem send_command_fixed_ok (s : BTState) (cmd : String)
    (notifs : List String) (h1 : s.is_connected = true) (h2 : s.hasClient = true)
    (h3 : s.hasCharacteristic = true) :
    (send_command s false cmd notifs).1.ret = some "OK" ∧
    (send_command s false cmd notifs).2 = s := by
  have hfold : notifs.foldl notification_handler s = s := by
    induction notifs with
    | nil => rfl
    | cons a t ih => simpa [notification_handler] using ih
  simp [send_command, h1, h2, h3, hfold]

/-- C9 witness: a connected handler sending "ATZ" with an arbitrary reply
fragment returns "OK". -/
theorem send_command_fixed_ok_witness :
    (send_command connectedBTState false "ATZ" ["ELM327 v1.5"]).1.ret =
      some "OK" ∧
    (send_command connectedBTState false "ATZ" ["ELM327 v1.5"]).2 =
      connectedBTState :=
  send_command_fixed_ok connectedBTState "ATZ" ["ELM327 v1.5"] rfl rfl rfl

/-- C10: once is_connected holds, connect_to_device returns True immediately:
the state is untouched (no new client, no verification — the environment env is
never consulted) and no callback is invoked. -/
theorem connect_idempotent_when_connected (s : BTState) (env : ConnectEnv)
    (h : s.is_connected = true) :
    connect_to_device s env = (true, s, []) := by
  simp [connect_to_device, h]

/-- C10 witness: connecting again on a connected handler, against an
environment that would fail every step, still returns True with nothing
changed. -/
theorem connect_idempotent_when_connected_witness :
    connect_to_device connectedBTState ⟨true, false, false, true⟩ =
      (true, connectedBTState, []) :=
  connect_idempotent_when_connected connectedBTState ⟨true, false, false, true⟩
    rfl

/-- C4: evaluation at the failing input. A fresh handler connects to a device
that lacks the ELM327 service UUID: connect_to_device returns False and
is_connected stays False, but the final state still has clientOpen = true —
the disconnect() call inside the verification-failure branch early-returns
(is_connected is still False there), so the transport is never closed, and no
callback fires either. -/
theorem connect_verification_failure_leaves_link_open :
    connect_to_device initialBTState ⟨false, false, true, false⟩ =
      (false, ⟨false, true, true, false⟩, []) ∧
    (⟨false, true, true, false⟩ : BTState).clientOpen = true := by
  decide

/-- C5 counterexample: a connect attempt that fails verification (service
present, characteristic missing) returns False while invoking no callback at
all — not one connectionCb false — and a successful disconnect invokes the
zero-argument disconnectionCb, never the boolean connection callback with
False. -/
theorem callback_per_transition_counterexample :
    (connect_to_device initialBTState ⟨false, true, false, false⟩).1 = false ∧
    (connect_to_device initialBTState ⟨false, true, false, false⟩).2.2 = [] ∧
    (disconnect connectedBTState false).2 = [CbEvent.disconnectionCb] ∧
    CbEvent.connectionCb false ∉ (disconnect connectedBTState false).2 := by
  decide

/-- The callback invocations a connect attempt on a disconnected handler
produces, per environment. -/
def connectCallbackEvents (env : ConnectEnv) : List CbEvent :=
  if env.openRaises then [CbEvent.connectionCb false]
  else if !env.hasService || !env.hasChar then []
  else if env.startNotifyRaises then [CbEvent.connectionCb false]
  else [CbEvent.connectionCb true]

/-- C5 amended: connect success invokes the connection callback exactly once
with True; a connect failure from a raised exception invokes it exactly once
with False; a verification failure (missing service or characteristic) returns
failure without invoking any callback; a completed disconnect invokes the
zero-argument disconnection callback exactly once and never the boolean
connection callback. -/
theorem callback_per_transition_amended (s : BTState) (env : ConnectEnv)
    (h : s.is_connected = false) :
    (connect_to_device s env).2.2 = connectCallbackEvents env ∧
    ((connect_to_device s env).1 = true ↔
      (connect_to_device s env).2.2 = [CbEvent.connectionCb true]) ∧
    (∀ (t : BTState) (r : Bool),
      (disconnect t r).2 =
        if t.is_connected && t.hasClient && !r then [CbEvent.disconnectionCb]
        else []) := by
  refine ⟨?_, ?_, ?_⟩
  · rcases env with ⟨o, sv, ch, sn⟩
    cases o <;> cases sv <;> cases ch <;> cases sn <;>
      simp [connect_to_device, connectCallbackEvents, disconnect, h]
  · rcases env with ⟨o, sv, ch, sn⟩
    cases o <;> cases sv <;> cases ch <;> cases sn <;>
      simp [connect_to_device, disconnect, h]
  · intro t r
    rcases t with ⟨tc, tcl, tco, tch⟩
    cases tc <;> cases tcl <;> cases r <;> simp [disconnect]

/-- C5 amended witness: a clean successful connect on a fresh handler produces
exactly one connectionCb true invocation. -/
theorem callback_per_transition_amended_witness :
    (connect_to_device initialBTState ⟨false, true, true, false⟩).2.2 =
      connectCallbackEvents ⟨false, true, true, false⟩ :=
  (callback_per_transition_amended initialBTState ⟨false, true, true, false⟩
    rfl).1

/-! ### Clear-faults settle delay: MainWindow._async_clear_fault_codes -/

/-- Steps observable during _async_clear_fault_codes, paired with the value of
a mock clock in the time units of `asyncio.sleep`. -/
inductive ClearEvent
  | clearAttempt (success : Bool)
  | requeryFaults
  | warnFailed
deriving DecidableEq, Repr

/-- _async_clear_fault_codes (main_window.py lines 266-281): the synchronous
clear_fault_codes() completes at time t0; on success the coroutine suspends in
`await asyncio.sleep(5)`, advancing the clock by 5, and only then runs
_async_query_faults; on failure it shows a warning and never re-queries. -/
def async_clear_fault_codes (t0 : Nat) (clearSuccess : Bool) :
    List (Nat × ClearEvent) :=
  if clearSuccess then
    [(t0, ClearEvent.clearAttempt true), (t0 + 5, ClearEvent.requeryFaults)]
  else
    [(t0, ClearEvent.clearAttempt false), (t0, ClearEvent.warnFailed)]

/-- C2: any fault re-query issued by _async_clear_fault_codes happens only when
the clear succeeded, and no earlier than 5 time units after the clear
completed. -/
theorem clear_settle_delay (t0 : Nat) (ok : Bool) (t : Nat)
    (h : (t, ClearEvent.requeryFaults) ∈ async_clear_fault_codes t0 ok) :
    ok = true ∧ t0 + 5 ≤ t := by
  cases ok <;> simp [async_clear_fault_codes] at h
  exact ⟨rfl, by omega⟩

/-- C2 witness: with the mock clock at 0 and a successful clear, the re-query
at time 5 satisfies the settle bound. -/
theorem clear_settle_delay_witness : true = true ∧ 0 + 5 ≤ 5 :=
  clear_settle_delay 0 true 5 (by decide)

/-! ### Query batches: OBDHandler.query_vehicle_data -/

/-- OBD-II modes (obd_handler.py lines 10-17). -/
inductive OBDMode
  | GLOBAL
  | SINCE_RESET
  | FAULT_CODES
  | CLEAR_FAULTS
  | CANBUS
  | GENERAL
deriving DecidableEq, Repr

/-- Container for OBD response data (obd_handler.py lines 19-26). -/
structure OBDResponse where
  mode : OBDMode
  command : String
  value : Option Int
  unit : String
  is_available : Bool
deriving DecidableEq, Repr

/-- What `self.connection.query(cmd)` does for one command in the
direct-connection branch: either a reply (possibly the null response) or a
raised exception. -/
inductive CmdBehavior
  | reply (isNull : Bool) (magnitude : Int) (unit : String)
  | raises
deriving DecidableEq, Repr

/-- The `for cmd in self.commands[mode]` loop of query_vehicle_data
(lines 111-137). The whole loop sits inside one `try`: a raised exception
escapes the loop into the `except` block and the results accumulated so far
are returned. In the Bluetooth branch every command gets a placeholder entry
with is_available = true; in the direct branch a null reply yields an entry
with value None and is_available = false; with neither connection the body
adds nothing. -/
def queryLoop (mode : OBDMode) (useBluetooth hasConnection : Bool) :
    List (String × CmdBehavior) → List (String × OBDResponse)
  | [] => []
  | (name, b) :: rest =>
      if useBluetooth then
        (name, ⟨mode, name, none, "", true⟩) ::
          queryLoop mode useBluetooth hasConnection rest
      else if hasConnection then
        match b with
        | CmdBehavior.raises => []
        | CmdBehavior.reply isNull v u =>
            (name, ⟨mode, name, if isNull then none else some v, u, !isNull⟩) ::
              queryLoop mode useBluetooth hasConnection rest
      else queryLoop mode useBluetooth hasConnection rest

/-- query_vehicle_data (lines 105-138): empty result when not connected,
otherwise the loop above. -/
def query_vehicle_data (is_connected : Bool)
    (useBluetooth hasConnection : Bool) (mode : OBDMode)
    (cmds : List (String × CmdBehavior)) : List (String × OBDResponse) :=
  if !is_connected then [] else queryLoop mode useBluetooth hasConnection cmds

/-- C6 counterexample: in a three-command batch over the direct connection
where the second command raises, the returned mapping holds only the first
command — the failing command gets no available-false entry and the third
command is never executed, contradicting the claim at this concrete input. -/
theorem batch_abort_counterexample :
    (query_vehicle_data true false true OBDMode.GLOBAL
        [("RPM", CmdBehavior.reply false 800 "rpm"),
         ("SPEED", CmdBehavior.raises),
         ("THROTTLE", CmdBehavior.reply false 12 "percent")]).map Prod.fst =
      ["RPM"] := by
  decide

lemma queryLoop_append_reply (mode : OBDMode)
    (pre rest : List (String × CmdBehavior)) (n : String) (isNull : Bool)
    (v : Int) (u : String)
    (hpre : ∀ p ∈ pre, p.2 ≠ CmdBehavior.raises) :
    queryLoop mode false true (pre ++ (n, CmdBehavior.reply isNull v u) :: rest) =
      queryLoop mode false true pre ++
        (n, ⟨mode, n, if isNull then none else some v, u, !isNull⟩) ::
          queryLoop mode false true rest := by
  induction pre with
  | nil => simp [queryLoop]
  | cons p pre ih =>
      rcases p with ⟨pn, pb⟩
      have hb : pb ≠ CmdBehavior.raises := hpre (pn, pb) (by simp)
      cases pb with
      | raises => exact absurd rfl hb
      | reply pi pv pu =>
          have := ih (fun q hq => hpre q (List.mem_cons_of_mem _ hq))
          simp [queryLoop, this]

lemma queryLoop_append_raises (mode : OBDMode)
    (pre rest : List (String × CmdBehavior)) (n : String)
    (hpre : ∀ p ∈ pre, p.2 ≠ CmdBehavior.raises) :
    queryLoop mode false true (pre ++ (n, CmdBehavior.raises) :: rest) =
      queryLoop mode false true pre := by
  induction pre with
  | nil => simp [queryLoop]
  | cons p pre ih =>
      rcases p with ⟨pn, pb⟩
      have hb : pb ≠ CmdBehavior.raises := hpre (pn, pb) (by simp)
      cases pb with
      | raises => exact absurd rfl hb
      | reply pi pv pu =>
          have := ih (fun q hq => hpre q (List.mem_cons_of_mem _ hq))
          simp [queryLoop, this]

/-- C6 amended: over the direct connection, a command whose reply is null (a
non-raising failure) contributes an entry with is_available = false and the
batch continues through the remaining commands; but a command that raises
aborts the batch — it gets no entry, the remaining commands are not executed,
and exactly the entries accumulated before the failure are returned. -/
theorem batch_error_propagation_amended (mode : OBDMode)
    (pre rest : List (String × CmdBehavior)) (n : String) (isNull : Bool)
    (v : Int) (u : String)
    (hpre : ∀ p ∈ pre, p.2 ≠ CmdBehavior.raises) :
    query_vehicle_data true false true mode
        (pre ++ (n, CmdBehavior.reply isNull v u) :: rest) =
      query_vehicle_data true false true mode pre ++
        (n, ⟨mode, n, if isNull then none else some v, u, !isNull⟩) ::
          query_vehicle_data true false true mode rest ∧
    query_vehicle_data true false true mode
        (pre ++ (n, CmdBehavior.raises) :: rest) =
      query_vehicle_data true false true mode pre := by
  unfold query_vehicle_data
  simp only [Bool.not_true, Bool.false_eq_true, if_false]
  exact ⟨queryLoop_append_reply mode pre rest n isNull v u hpre,
         queryLoop_append_raises mode pre rest n hpre⟩

/-- C6 amended witness: a null reply for "RPM" yields an unavailable entry
while the batch continues into a later raising command, which in turn cuts the
batch short. -/
theorem batch_error_propagation_amended_witness :
    query_vehicle_data true false true OBDMode.GLOBAL
        ([] ++ ("RPM", CmdBehavior.reply true 0 "rpm") ::
          [("SPEED", CmdBehavior.raises)]) =
      query_vehicle_data true false true OBDMode.GLOBAL [] ++
        ("RPM", ⟨OBDMode.GLOBAL, "RPM", if true then none else some 0, "rpm",
          !true⟩) ::
          query_vehicle_data true false true OBDMode.GLOBAL
            [("SPEED", CmdBehavior.raises)] ∧
    query_vehicle_data true false true OBDMode.GLOBAL
        ([] ++ ("RPM", CmdBehavior.raises) :: [("SPEED", CmdBehavior.raises)]) =
      query_vehicle_data true false true OBDMode.GLOBAL [] :=
  batch_error_propagation_amended OBDMode.GLOBAL [] [("SPEED", CmdBehavior.raises)]
    "RPM" true 0 "rpm" (by simp)

/-! ### Fault Code Codec

The repository delegates fault-code decoding to the external python-obd
library; no codec implementation exists under src/ (query_fault_codes only
returns the library result or a placeholder list). The definitions below are
therefore modelled from the specification and checked against its algebraic
claims. -/

/-- Modelled from the spec: fault-code categories — the codec implementation
is missing from src/. Top two bits of the first byte select the category
\x7b00→P, 01→C, 10→B, 11→U\x7d. -/
inductive DTCCategory
  | P
  | C
  | B
  | U
deriving DecidableEq, Repr

/-- Modelled from the spec: category selected by the top two bits of the first
byte. -/
def categoryOfBits : Nat → DTCCategory
  | 0 => DTCCategory.P
  | 1 => DTCCategory.C
  | 2 => DTCCategory.B
  | _ => DTCCategory.U

/-- Modelled from the spec: the two category bits, inverse direction. -/
def DTCCategory.toBits : DTCCategory → Nat
  | DTCCategory.P => 0
  | DTCCategory.C => 1
  | DTCCategory.B => 2
  | DTCCategory.U => 3

/-- Modelled from the spec: the category letter of the canonical string. -/
def DTCCategory.letter : DTCCategory → Char
  | DTCCategory.P => 'P'
  | DTCCategory.C => 'C'
  | DTCCategory.B => 'B'
  | DTCCategory.U => 'U'

/-- Modelled from the spec: a FaultCode, derived deterministically from 2 raw
bytes — a category plus the remaining 14 bits, rendered as 4 hex digits (the
first hex digit therefore ranges over 0..3). -/
structure FaultCode where
  category : DTCCategory
  digits : Fin 16384
deriving DecidableEq, Repr

/-- Modelled from the spec: decode of one fixed-size byte pair — the codec
implementation is missing from src/. The top two bits of the first byte select
the category, the remaining 6 + 8 bits are the digits. -/
def decodeDTC (b0 b1 : Fin 256) : FaultCode :=
  { category := categoryOfBits (b0.val / 64)
    digits := ⟨(b0.val % 64) * 256 + b1.val, by omega⟩ }

lemma DTCCategory.toBits_le (c : DTCCategory) : c.toBits ≤ 3 := by
  cases c <;> decide

/-- Modelled from the spec: encode, the exact inverse of decode — the codec
implementation is missing from src/. -/
def encodeDTC (fc : FaultCode) : Fin 256 × Fin 256 :=
  (⟨fc.category.toBits * 64 + fc.digits.val / 256, by
      have h := fc.category.toBits_le
      have h2 := fc.digits.isLt
      omega⟩,
   ⟨fc.digits.val % 256, by omega⟩)

/-- Modelled from the spec: a hex digit character (0-9, A-F). -/
def hexChar (n : Nat) : Char :=
  if n < 10 then Char.ofNat (48 + n) else Char.ofNat (55 + n)

/-- Modelled from the spec: canonical 5-character string form — category
letter followed by the 14 remaining bits as 4 hex digits. -/
def FaultCode.canonical (fc : FaultCode) : String :=
  String.mk [fc.category.letter,
    hexChar (fc.digits.val / 4096),
    hexChar (fc.digits.val / 256 % 16),
    hexChar (fc.digits.val / 16 % 16),
    hexChar (fc.digits.val % 16)]

lemma categoryOfBits_toBits (c : DTCCategory) :
    categoryOfBits c.toBits = c := by
  cases c <;> rfl

lemma toBits_categoryOfBits (n : Nat) (h : n < 4) :
    (categoryOfBits n).toBits = n := by
  interval_cases n <;> rfl

/-- C3: the fault-code codec is a lossless bijection — decode after encode is
the identity on fault codes, encode after decode is the identity on byte
pairs; and the byte pair 03 01 decodes to the canonical string "P0301". -/
theorem dtc_codec_roundtrip :
    (∀ fc : FaultCode, decodeDTC (encodeDTC fc).1 (encodeDTC fc).2 = fc) ∧
    (∀ b0 b1 : Fin 256, encodeDTC (decodeDTC b0 b1) = (b0, b1)) ∧
    (decodeDTC 3 1).canonical = "P0301" := by
  refine ⟨?_, ?_, by decide⟩
  · rintro ⟨c, d⟩
    have hc := c.toBits_le
    have hd := d.isLt
    simp only [decodeDTC, encodeDTC]
    have h64 : (c.toBits * 64 + d.val / 256) / 64 = c.toBits := by omega
    have hmod : (c.toBits * 64 + d.val / 256) % 64 = d.val / 256 := by omega
    refine FaultCode.mk.injEq .. ▸ ?_
    constructor
    · rw [h64, categoryOfBits_toBits]
    · apply Fin.ext
      simp only [hmod]
      omega
  · intro b0 b1
    have h0 := b0.isLt
    have h1 := b1.isLt
    have hcat : (categoryOfBits (b0.val / 64)).toBits = b0.val / 64 :=
      toBits_categoryOfBits _ (by omega)
    simp only [decodeDTC, encodeDTC]
    refine Prod.ext ?_ ?_
    · apply Fin.ext
      simp only [hcat]
      omega
    · apply Fin.ext
      simp only []
      omega

end ObdII
